import Mathlib

/-!
Verification of the transcription utility in `src/project.py`.

The program has three pieces:
* `load_whisper_model` — constructs a `WhisperModel("base", device="cpu",
  compute_type="int8")`, memoized process-wide by the `@st.cache_resource`
  decorator;
* `transcribe_video model video_path` — calls the model's `transcribe`
  method, iterates the lazily generated segment sequence accumulating
  `segment.text + " "`, strips the result, and returns `(True, text)`;
  any exception is caught and turned into
  `(False, "Transcription failed: " + message + "\n" + traceback)`;
* `main` — stages the uploaded bytes to a `NamedTemporaryFile(delete=False)`
  (this staging happens BEFORE the `try` block), then inside
  `try/except/finally` obtains the model handle, calls the adapter,
  displays either the failure diagnostic (early return) or the transcript,
  and in `finally` unlinks the temporary file if it exists.

The external collaborators (faster-whisper, Streamlit) are modelled by
oracles: a model behavior maps a path to an outcome (the call raises, or it
yields a finite list of segments possibly followed by a mid-iteration
exception), and the filesystem is a finite set of existing paths.
-/

namespace Whisper

/-- A caught Python exception, as the adapter observes it: `str(e)` and the
text of `traceback.format_exc()`. -/
structure Exn where
  msg : String
  trace : String
deriving DecidableEq, Repr

/-- A segment emitted by the model's lazy generator. The source consumes only
the `text` attribute (`segment.text`); timing metadata is unused. -/
structure Segment where
  text : String
deriving DecidableEq, Repr

/-- Behavior of one `model.transcribe(path, ...)` call: either the call
itself raises, or it returns a generator that yields `segs` in order and
then either finishes normally (`midErr = none`) or raises mid-iteration
(`midErr = some e`). -/
inductive ModelOutcome where
  | raiseOnCall (e : Exn)
  | segments (segs : List Segment) (midErr : Option Exn)
deriving DecidableEq, Repr

/-- An external model handle's observable behavior: what
`model.transcribe` does on each input path (with the fixed options
`beam_size=5, vad_filter=True, min_silence_duration_ms=500`). -/
def ModelBehavior : Type := String → ModelOutcome

/-- Python whitespace for `str.strip()`: space, tab, newline, vertical tab,
form feed, carriage return. -/
def isSpaceChar (c : Char) : Bool :=
  c == ' ' || c == '\t' || c == '\n' || c == '\x0b' || c == '\x0c' || c == '\r'

/-- Python's `str.strip()`: remove leading and trailing whitespace. -/
def pyStrip (s : String) : String :=
  ⟨((s.data.dropWhile isSpaceChar).reverse.dropWhile isSpaceChar).reverse⟩

/-- The `for segment in segments` loop of `transcribe_video`
(src/project.py lines 26-29): starting from accumulator `acc` (initially
`""`), append `segment.text + " "` for each yielded segment; if the
generator raises mid-iteration, the exception propagates (the partial
accumulator is abandoned). -/
def drainSegments : List Segment → Option Exn → String → Except Exn String
  | [], none, acc => Except.ok acc
  | [], some e, _ => Except.error e
  | s :: rest, midErr, acc => drainSegments rest midErr (acc ++ s.text ++ " ")

/-- The body of `transcribe_video`'s `try` block (src/project.py lines
17-30): call the model, drain the segment generator, strip the joined text.
Exceptions propagate as `Except.error`. -/
def transcribeBody (model : ModelBehavior) (video_path : String) :
    Except Exn String :=
  match model video_path with
  | ModelOutcome.raiseOnCall e => Except.error e
  | ModelOutcome.segments segs midErr =>
    match drainSegments segs midErr "" with
    | Except.ok t => Except.ok (pyStrip t)
    | Except.error e => Except.error e

/-- The diagnostic built in the `except` clause (src/project.py lines
32-34): `f"Transcription failed: {e}\n{tb}"`. -/
def failureDiagnostic (e : Exn) : String :=
  "Transcription failed: " ++ e.msg ++ "\n" ++ e.trace

/-- `transcribe_video(model, video_path)` (src/project.py lines 15-34):
returns `(True, stripped joined text)` on success, and on any exception
from the model call or the iteration returns
`(False, "Transcription failed: ..." )`. Total: no exception escapes. -/
def transcribe_video (model : ModelBehavior) (video_path : String) :
    Bool × String :=
  match transcribeBody model video_path with
  | Except.ok t => (true, t)
  | Except.error e => (false, failureDiagnostic e)

/-- The spec's join: each segment's text followed by one space,
concatenated in emission order. -/
def spaceTerminated : List String → String
  | [] => ""
  | t :: rest => t ++ " " ++ spaceTerminated rest

/-- The fixed model handle constructed by `load_whisper_model`
(src/project.py line 13): `WhisperModel("base", device="cpu",
compute_type="int8")`. -/
structure ModelHandle where
  modelSize : String
  device : String
  computeType : String
deriving DecidableEq, Repr

/-- The handle that the body of `load_whisper_model` builds. -/
def whisperModelCtor : ModelHandle := ⟨"base", "cpu", "int8"⟩

/-- The process-wide `@st.cache_resource` cache: the memoized handle, if the
body has already run, and how many times the body (weight loading) ran. -/
structure CacheState where
  cached : Option ModelHandle
  constructCount : Nat
deriving DecidableEq, Repr

/-- `load_whisper_model()` (src/project.py lines 9-13) under the
`@st.cache_resource` decorator: return the cached handle if present,
otherwise run the body (construct `WhisperModel("base", "cpu", "int8")`),
cache it and return it. The decorator is external Streamlit machinery; its
documented memoization is made explicit as cache-state passing. -/
def load_whisper_model (s : CacheState) : ModelHandle × CacheState :=
  match s.cached with
  | some h => (h, s)
  | none => (whisperModelCtor, ⟨some whisperModelCtor, s.constructCount + 1⟩)

/-- The cache state at process start: nothing cached, weights never
loaded. -/
def initialCache : CacheState := ⟨none, 0⟩

/-- `n` transcription requests in one process, each calling
`load_whisper_model()`: final cache state and the handles obtained, in
order. -/
def runRequests : Nat → CacheState × List ModelHandle
  | 0 => (initialCache, [])
  | n + 1 =>
    let p := runRequests n
    let q := load_whisper_model p.1
    (q.2, p.2 ++ [q.1])

/-- What one press of the Transcribe button can do, beyond the adapter's own
behavior: whether writing the upload to the temporary file raises, whether
`load_whisper_model()` raises, the model handle's behavior, and whether the
display steps (`st.success`, `st.text_area`, `st.download_button`) raise. -/
structure Request where
  stagingErr : Option Exn
  loadErr : Option Exn
  model : ModelBehavior
  displayErr : Option Exn

/-- What `main` reports to the user for one request (src/project.py lines
65-91): the success path shows the transcript and offers
`transcript.txt`; the adapter-failure path shows the diagnostic and
returns early; the `except` clause shows
`f"An unexpected error occurred: \x7be\x7d"` and the traceback. -/
inductive MainOutcome where
  | success (transcript : String) (downloadName : String)
  | adapterFailure (shown : String)
  | unexpectedError (shown : String) (shownTrace : String)
deriving DecidableEq, Repr

/-- The body of the `try` block of `main` (src/project.py lines 65-87):
obtain the memoized handle, call `transcribe_video`, early-return on
failure, otherwise display and offer the download. Exceptions propagate as
`Except.error` to be caught by the `except` clause. -/
def tryBlock (req : Request) (video_path : String) :
    Except Exn MainOutcome :=
  match req.loadErr with
  | some e => Except.error e
  | none =>
    let r := transcribe_video req.model video_path
    if r.1 = false then
      Except.ok (MainOutcome.adapterFailure ("Transcription Failed:\n" ++ r.2))
    else
      match req.displayErr with
      | some e => Except.error e
      | none => Except.ok (MainOutcome.success r.2 "transcript.txt")

/-- The `try/except/finally` of `main` (src/project.py lines 65-95), given
the staged path and the filesystem: the `except` clause turns any exception
into an error report, and the `finally` clause unlinks `video_path` if it
exists. -/
def handleStaged (req : Request) (video_path : String)
    (fs : Finset String) : MainOutcome × Finset String :=
  let outcome :=
    match tryBlock req video_path with
    | Except.ok out => out
    | Except.error e =>
      MainOutcome.unexpectedError
        ("An unexpected error occurred: " ++ e.msg) e.trace
  (outcome, fs.erase video_path)

/-- One button press in `main` (src/project.py lines 59-95): staging first
creates the temporary file at `tmp_path` and writes the upload to it; this
happens BEFORE the `try` block, so a staging exception propagates out of
`main` uncaught and the temporary file is left behind. Otherwise the
`try/except/finally` runs. Returns the (caught or propagated) outcome and
the final filesystem. -/
def main_request (req : Request) (tmp_path : String)
    (fs : Finset String) : Except Exn MainOutcome × Finset String :=
  let fs1 := insert tmp_path fs
  match req.stagingErr with
  | some e => (Except.error e, fs1)
  | none =>
    let r := handleStaged req tmp_path fs1
    (Except.ok r.1, r.2)

/-- Run-indexed model behavior, to state two-run determinism: the outcome
may depend on which call (by index) observes it. -/
def transcribe_video_run (model : String → Nat → ModelOutcome) (call : Nat)
    (video_path : String) : Bool × String :=
  transcribe_video (fun q => model q call) video_path

/-! ### Helper lemmas -/

theorem drainSegments_none (segs : List Segment) (acc : String) :
    drainSegments segs none acc =
      Except.ok (acc ++ spaceTerminated (segs.map Segment.text)) := by
  induction segs generalizing acc with
  | nil => simp [drainSegments, spaceTerminated, String.append_empty]
  | cons s rest ih =>
    simp only [drainSegments, spaceTerminated, List.map_cons, ih,
      String.append_assoc]

theorem drainSegments_some (segs : List Segment) (e : Exn) (acc : String) :
    drainSegments segs (some e) acc = Except.error e := by
  induction segs generalizing acc with
  | nil => rfl
  | cons s rest ih => simp only [drainSegments, ih]

theorem failureDiagnostic_ne_empty (e : Exn) : failureDiagnostic e ≠ "" := by
  intro h
  have h2 : (failureDiagnostic e).data = "".data := by rw [h]
  simp [failureDiagnostic, String.data_append] at h2

theorem runRequests_eq (n : Nat) :
    runRequests n =
      ((if n = 0 then initialCache else ⟨some whisperModelCtor, 1⟩),
        List.replicate n whisperModelCtor) := by
  induction n with
  | zero => rfl
  | succ k ih =>
    rw [runRequests, ih]
    cases k with
    | zero => rfl
    | succ m =>
      simp [load_whisper_model, List.replicate_succ' (m + 1)]

/-! ### Claims -/

/-- C1: for every input path and model behavior, `transcribe_video` returns
a tagged outcome — `(true, text)` with `text` a string (possibly empty), or
`(false, diagnostic)` built from the caught exception — and, being a total
function into `Bool × String`, never lets an exception from the model call
or from iterating its segment sequence propagate to the caller. -/
theorem C1_adapter_total_tagged (model : ModelBehavior) (video_path : String) :
    (∃ t : String, transcribe_video model video_path = (true, t)) ∨
    (∃ e : Exn, transcribeBody model video_path = Except.error e ∧
      transcribe_video model video_path = (false, failureDiagnostic e)) := by
  cases h : transcribeBody model video_path with
  | ok t => exact Or.inl ⟨t, by simp [transcribe_video, h]⟩
  | error e => exact Or.inr ⟨e, rfl, by simp [transcribe_video, h]⟩

/-- C2: when the model yields segments `segs` and finishes normally, the
adapter succeeds with exactly the emission-order concatenation of each
segment's text followed by one space, trimmed only at the ends of the whole
string; in particular segments `["Hello", "world"]` give `"Hello world"`,
and an empty middle segment leaves two consecutive internal spaces. -/
theorem C2_concatenation_law (segs : List Segment) (video_path : String) :
    transcribe_video (fun _ => ModelOutcome.segments segs none) video_path
      = (true, pyStrip (spaceTerminated (segs.map Segment.text)))
    ∧ transcribe_video
        (fun _ => ModelOutcome.segments [⟨"Hello"⟩, ⟨"world"⟩] none) video_path
      = (true, "Hello world")
    ∧ transcribe_video
        (fun _ => ModelOutcome.segments [⟨"Hello"⟩, ⟨""⟩, ⟨"world"⟩] none)
          video_path
      = (true, "Hello  world") := by
  refine ⟨?_, rfl, rfl⟩
  simp [transcribe_video, transcribeBody, drainSegments_none,
    String.empty_append]

/-- C3: whenever staging succeeds and the orchestrator proceeds to
model-handle acquisition, transcription and display, the staged temporary
file is absent from the filesystem when `main` returns, on every exit path
(success, adapter-failure early return, and any exception raised inside
those steps). -/
theorem C3_temp_file_removed (req : Request) (tmp_path : String)
    (fs : Finset String) (h : req.stagingErr = none) :
    tmp_path ∉ (main_request req tmp_path fs).2 := by
  simp [main_request, h, handleStaged, Finset.not_mem_erase]

/-- Witness for C3 at a concrete request (silent model, no errors). -/
theorem C3_temp_file_removed_witness :
    (Request.mk none none (fun _ => ModelOutcome.segments [] none)
        none).stagingErr = none
    ∧ "/tmp/upload.mp4" ∉
        (main_request
          (Request.mk none none (fun _ => ModelOutcome.segments [] none) none)
          "/tmp/upload.mp4" ∅).2 :=
  ⟨rfl, C3_temp_file_removed _ _ _ rfl⟩

/-- C4 counterexample: an exception while writing the upload to the
temporary file (staging, which in src/project.py lines 61-63 happens before
the `try` at line 65) is not caught by the orchestrator — `main` propagates
it — and the temporary file is not cleaned up, contradicting the claim that
every exception outside the adapter, including during staging, is caught
and followed by cleanup. -/
theorem C4_staging_exception_escapes_and_skips_cleanup :
    (main_request
        (Request.mk (some ⟨"No space left on device", "Traceback"⟩) none
          (fun _ => ModelOutcome.segments [] none) none)
        "/tmp/upload.mp4" ∅).1
      = Except.error ⟨"No space left on device", "Traceback"⟩
    ∧ "/tmp/upload.mp4" ∈
      (main_request
        (Request.mk (some ⟨"No space left on device", "Traceback"⟩) none
          (fun _ => ModelOutcome.segments [] none) none)
        "/tmp/upload.mp4" ∅).2 := by
  exact ⟨rfl, by simp [main_request]⟩

/-- C4 (amended): every exception raised after staging completes — inside
the `try` block, i.e. during model-handle acquisition, the adapter call or
result display — is caught by the orchestrator, reported with the
exception's message and trace, and is still followed by removal of the
staged temporary file; an exception during staging itself propagates
uncaught and skips cleanup. -/
theorem C4_post_staging_exceptions_caught (req : Request) (tmp_path : String)
    (fs : Finset String) (e : Exn) (hs : req.stagingErr = none)
    (he : tryBlock req tmp_path = Except.error e) :
    (main_request req tmp_path fs).1
      = Except.ok (MainOutcome.unexpectedError
          ("An unexpected error occurred: " ++ e.msg) e.trace)
    ∧ tmp_path ∉ (main_request req tmp_path fs).2 := by
  simp [main_request, hs, handleStaged, he, Finset.not_mem_erase]

/-- Witness for the amended C4: model-handle acquisition raises. -/
theorem C4_post_staging_exceptions_caught_witness :
    (Request.mk none (some ⟨"CUDA error", "tb"⟩)
        (fun _ => ModelOutcome.segments [] none) none).stagingErr = none
    ∧ tryBlock
        (Request.mk none (some ⟨"CUDA error", "tb"⟩)
          (fun _ => ModelOutcome.segments [] none) none) "/tmp/upload.mp4"
      = Except.error ⟨"CUDA error", "tb"⟩
    ∧ (main_request
        (Request.mk none (some ⟨"CUDA error", "tb"⟩)
          (fun _ => ModelOutcome.segments [] none) none)
        "/tmp/upload.mp4" ∅).1
      = Except.ok (MainOutcome.unexpectedError
          ("An unexpected error occurred: " ++ "CUDA error") "tb")
    ∧ "/tmp/upload.mp4" ∉
      (main_request
        (Request.mk none (some ⟨"CUDA error", "tb"⟩)
          (fun _ => ModelOutcome.segments [] none) none)
        "/tmp/upload.mp4" ∅).2 :=
  ⟨rfl, rfl,
    (C4_post_staging_exceptions_caught
      (Request.mk none (some ⟨"CUDA error", "tb"⟩)
        (fun _ => ModelOutcome.segments [] none) none)
      "/tmp/upload.mp4" ∅ ⟨"CUDA error", "tb"⟩ rfl rfl).1,
    (C4_post_staging_exceptions_caught
      (Request.mk none (some ⟨"CUDA error", "tb"⟩)
        (fun _ => ModelOutcome.segments [] none) none)
      "/tmp/upload.mp4" ∅ ⟨"CUDA error", "tb"⟩ rfl rfl).2⟩

/-- C5: if the segment generator raises mid-iteration, the adapter returns
the failure diagnostic — independent of how many segments had already been
accumulated — so a failed transcription yields no text, never a truncated
transcript. -/
theorem C5_mid_iteration_failure_discards_partial (segs : List Segment)
    (e : Exn) (video_path : String) :
    transcribe_video (fun _ => ModelOutcome.segments segs (some e)) video_path
      = (false, failureDiagnostic e) := by
  simp [transcribe_video, transcribeBody, drainSegments_some]

/-- C6: for every exception caught by the adapter, the returned failure
diagnostic contains the exception's message and the captured stack trace as
substrings, and is non-empty. -/
theorem C6_diagnostic_carries_message_and_trace (model : ModelBehavior)
    (video_path : String) (e : Exn)
    (h : transcribeBody model video_path = Except.error e) :
    transcribe_video model video_path = (false, failureDiagnostic e)
    ∧ (∃ a b, failureDiagnostic e = a ++ e.msg ++ b)
    ∧ (∃ c, failureDiagnostic e = c ++ e.trace)
    ∧ failureDiagnostic e ≠ "" := by
  refine ⟨by simp [transcribe_video, h],
    ⟨"Transcription failed: ", "\n" ++ e.trace, ?_⟩,
    ⟨"Transcription failed: " ++ e.msg ++ "\n", rfl⟩,
    failureDiagnostic_ne_empty e⟩
  simp [failureDiagnostic, String.append_assoc]

/-- Witness for C6: the model call itself raises. -/
theorem C6_diagnostic_carries_message_and_trace_witness :
    transcribeBody
        (fun _ => ModelOutcome.raiseOnCall
          ⟨"boom", "Traceback (most recent call last)"⟩) "/tmp/v.mp4"
      = Except.error ⟨"boom", "Traceback (most recent call last)"⟩
    ∧ failureDiagnostic ⟨"boom", "Traceback (most recent call last)"⟩ ≠ "" :=
  ⟨rfl,
    (C6_diagnostic_carries_message_and_trace
      (fun _ => ModelOutcome.raiseOnCall
        ⟨"boom", "Traceback (most recent call last)"⟩)
      "/tmp/v.mp4" ⟨"boom", "Traceback (most recent call last)"⟩ rfl).2.2.2⟩

/-- C7: when the model emits no segments (no speech detected), the adapter
returns a success outcome with the empty string. -/
theorem C7_no_segments_empty_success (video_path : String) :
    transcribe_video (fun _ => ModelOutcome.segments [] none) video_path
      = (true, "") := rfl

/-- C8: two calls of the adapter with the same model handle, path and
options produce identical output when the underlying model is
deterministic (its outcome does not depend on the call index). -/
theorem C8_two_run_determinism (model : String → Nat → ModelOutcome)
    (video_path : String) (i j : Nat)
    (hdet : ∀ q a b, model q a = model q b) :
    transcribe_video_run model i video_path
      = transcribe_video_run model j video_path := by
  unfold transcribe_video_run
  have hm : (fun q => model q i) = (fun q => model q j) :=
    funext fun q => hdet q i j
  rw [hm]

/-- Witness for C8 at a concrete deterministic model. -/
theorem C8_two_run_determinism_witness :
    (∀ q a b,
      (fun (_ : String) (_ : Nat) => ModelOutcome.segments [] none) q a
        = (fun (_ : String) (_ : Nat) => ModelOutcome.segments [] none) q b)
    ∧ transcribe_video_run
        (fun _ _ => ModelOutcome.segments [] none) 0 "/tmp/v.mp4"
      = transcribe_video_run
        (fun _ _ => ModelOutcome.segments [] none) 1 "/tmp/v.mp4" :=
  ⟨fun _ _ _ => rfl,
    C8_two_run_determinism _ "/tmp/v.mp4" 0 1 (fun _ _ _ => rfl)⟩

/-- C9: across any number of requests in one process, the memoized
`load_whisper_model` constructs the handle at most once (exactly once as
soon as one request ran), and every request obtains the same single
handle. -/
theorem C9_model_handle_memoized (n : Nat) :
    (runRequests n).1.constructCount ≤ 1
    ∧ ((runRequests n).2.all fun h => h == whisperModelCtor) = true
    ∧ (1 ≤ n → (runRequests n).1.constructCount = 1) := by
  rw [runRequests_eq]
  refine ⟨?_, ?_, ?_⟩
  · cases n <;> simp [initialCache]
  · simp [List.all_eq_true]
  · intro hn
    have hne : n ≠ 0 := by omega
    simp [hne]

/-- Witness for C9 at two requests in one process. -/
theorem C9_model_handle_memoized_witness :
    1 ≤ 2 ∧ (runRequests 2).1.constructCount = 1 :=
  ⟨by decide, (C9_model_handle_memoized 2).2.2 (by decide)⟩

/-- C10: every failure result of the adapter carries a diagnostic that
begins with the fixed text `Transcription failed: `, hence is non-empty
even when the caught exception's own message is empty. -/
theorem C10_diagnostic_begins_fixed (model : ModelBehavior)
    (video_path : String)
    (h : (transcribe_video model video_path).1 = false) :
    ∃ rest, (transcribe_video model video_path).2
        = "Transcription failed: " ++ rest
      ∧ (transcribe_video model video_path).2 ≠ "" := by
  cases he : transcribeBody model video_path with
  | ok t => simp [transcribe_video, he] at h
  | error e =>
    have heq : transcribe_video model video_path
        = (false, failureDiagnostic e) := by simp [transcribe_video, he]
    refine ⟨e.msg ++ "\n" ++ e.trace, ?_, ?_⟩
    · rw [heq]
      simp [failureDiagnostic, String.append_assoc]
    · rw [heq]
      exact failureDiagnostic_ne_empty e

/-- Witness for C10 with an exception whose message is the empty string. -/
theorem C10_diagnostic_begins_fixed_witness :
    (transcribe_video (fun _ => ModelOutcome.raiseOnCall ⟨"", ""⟩)
        "/tmp/v.mp4").1 = false
    ∧ ∃ rest,
        (transcribe_video (fun _ => ModelOutcome.raiseOnCall ⟨"", ""⟩)
          "/tmp/v.mp4").2 = "Transcription failed: " ++ rest
        ∧ (transcribe_video (fun _ => ModelOutcome.raiseOnCall ⟨"", ""⟩)
            "/tmp/v.mp4").2 ≠ "" :=
  ⟨rfl, C10_diagnostic_begins_fixed _ "/tmp/v.mp4" rfl⟩

end Whisper
